import Mathlib

/-!
Shallow embedding of the x-com-bot orchestration core
(`bot.py`, `model_manager.py`, `x_com_bot/config.py`, `run_bot.py`).

External effects (platform API calls, the local model server, the clock,
logging sinks) are modelled as oracles: each fallible network call is a
function from an attempt index (or call site) to an `Except`-valued
outcome, and the embedded code is a pure function of those oracles.
Time is modelled with rationals; `time.sleep` is exact up to an explicit
non-negative drift parameter.
-/

/-! ## Data model (tweepy `Tweet` objects, as consumed by `bot.py`) -/

/-- One element of `tweet.referenced_tweets`: `{id, type}` where `type`
is e.g. `"replied_to"`, `"quoted"`, `"retweeted"`. -/
structure RefTweet where
  id : String
  type : String
deriving DecidableEq, Repr

/-- A platform post as used by the bot. A Python `referenced_tweets`
of `None` is modelled as the empty list (both are falsy in the source's
`if mention.referenced_tweets:` checks). -/
structure Tweet where
  id : String
  text : String
  referenced_tweets : List RefTweet
deriving DecidableEq, Repr

/-! ## Rate limiter (`XComBot.enforce_rate_limit`, bot.py lines 120-126) -/

/-- `self.request_delay = 2.0` (bot.py, end of `__init__`). -/
def request_delay : ℚ := 2

/-- Embedding of `enforce_rate_limit`.  `last_request_time` is the stored
`self.last_request_time`, `now` is the value of the first `time.time()`
call, and `drift ≥ 0` is the time that passes between the end of the
(exact) sleep and the second `time.time()` call.  Returns the timestamp
recorded as the new `self.last_request_time`, which is also the earliest
possible start time of the outbound call that follows, paired with the
new limiter state (the two coincide in the source: the second
`time.time()` result is stored). -/
def enforce_rate_limit (last_request_time now drift : ℚ) : ℚ × ℚ :=
  let time_since_last := now - last_request_time
  let wait := if time_since_last < request_delay
    then request_delay - time_since_last else 0
  let t := now + wait + drift
  (t, t)

/-! ## Configuration loading (`x_com_bot/config.py`, `load_config`) -/

/-- The `required_vars` list of `load_config`. -/
def required_vars : List String :=
  ["TWITTER_API_KEY", "TWITTER_API_SECRET", "TWITTER_ACCESS_TOKEN",
   "TWITTER_ACCESS_TOKEN_SECRET", "TWITTER_BEARER_TOKEN"]

/-- The configuration dictionary built by `load_config`: the lowercased
required keys (values may be `None`, Python stores them regardless),
plus the derived `model_name` and `check_interval` entries. -/
structure BotConfig where
  entries : List (String × Option String)
  model_name : String
  check_interval : Int
deriving DecidableEq, Repr

/-- Embedding of `load_config`.  `env` is `os.getenv`.  The source first
builds the full config dictionary (collecting `missing_vars` on the way),
derives `model_name` (default `"deepseek-r1:1.5b"` when the variable is
unset or empty, both falsy) and `check_interval` (default 60, also used
as fallback when `int()` fails), and only then raises `ValueError`
listing the missing variables, if any. -/
def load_config (env : String → Option String) : Except String BotConfig :=
  let missing_vars := required_vars.filter (fun v => (env v).isNone)
  let entries := required_vars.map (fun v => (v.toLower, env v))
  let model_name := match env "MODEL_NAME" with
    | some m => if m = "" then "deepseek-r1:1.5b" else m
    | none => "deepseek-r1:1.5b"
  let check_interval : Int := match env "CHECK_INTERVAL" with
    | some s => if s = "" then 60 else
        match s.toInt? with
        | some k => k
        | none => 60
    | none => 60
  if missing_vars.isEmpty then
    .ok ⟨entries, model_name, check_interval⟩
  else
    .error ("Missing required environment variables: "
      ++ String.intercalate ", " missing_vars)

/-! ## Claim theorems: rate limiting and configuration -/

/-- C4: for two consecutive outbound calls through the same adapter
instance, each preceded by `enforce_rate_limit`, the second call's start
time is at least `request_delay` (2.0) after the timestamp recorded for
the first call; moreover the recorded timestamp is exactly the first
call's start time, so the minimum-spacing invariant is preserved across
every operation. -/
theorem enforce_rate_limit_min_spacing
    (last n1 d1 n2 d2 : ℚ) (h1 : 0 ≤ d1) (h2 : 0 ≤ d2) :
    (enforce_rate_limit last n1 d1).2 + request_delay
        ≤ (enforce_rate_limit (enforce_rate_limit last n1 d1).2 n2 d2).1
      ∧ (enforce_rate_limit last n1 d1).2 = (enforce_rate_limit last n1 d1).1 := by
  constructor
  · simp only [enforce_rate_limit, request_delay]
    split <;> split <;> linarith
  · rfl

/-- Witness for C4: called at `last_request_time = 0`, `now = 1`
(1 unit elapsed, less than the 2-unit delay) then again at `now = 2`,
the second call starts at time 4 = 2 + 2. -/
theorem enforce_rate_limit_min_spacing_witness :
    (enforce_rate_limit 0 1 0).2 + request_delay
        ≤ (enforce_rate_limit (enforce_rate_limit 0 1 0).2 2 0).1 :=
  (enforce_rate_limit_min_spacing 0 1 0 2 0 (le_refl 0) (le_refl 0)).1

/-- C8: whenever at least one required environment variable is unset,
`load_config` returns the `ValueError` whose message lists exactly the
unset required variables (membership in the listed names is equivalent
to being a required variable that is unset), and no configuration is
produced, so initialization cannot proceed. -/
theorem load_config_missing_vars_exact
    (env : String → Option String)
    (h : ∃ v, v ∈ required_vars ∧ env v = none) :
    load_config env = .error ("Missing required environment variables: "
        ++ String.intercalate ", " (required_vars.filter (fun v => (env v).isNone)))
      ∧ (∀ v, v ∈ required_vars.filter (fun v => (env v).isNone)
          ↔ (v ∈ required_vars ∧ env v = none))
      ∧ (∀ cfg, load_config env ≠ .ok cfg) := by
  obtain ⟨v, hv, hnone⟩ := h
  have hmem : v ∈ required_vars.filter (fun v => (env v).isNone) := by
    simp [List.mem_filter, hv, hnone]
  have hne : (required_vars.filter (fun v => (env v).isNone)).isEmpty = false := by
    cases hfil : required_vars.filter (fun v => (env v).isNone) with
    | nil => rw [hfil] at hmem; cases hmem
    | cons a l => simp
  refine ⟨?_, ?_, ?_⟩
  · simp only [load_config, hne, Bool.false_eq_true, if_false]
  · intro w
    simp [List.mem_filter, Option.isNone_iff_eq_none]
  · intro cfg hcfg
    simp only [load_config, hne, Bool.false_eq_true, if_false] at hcfg
    cases hcfg

/-- Witness for C8: with only `TWITTER_API_KEY` unset, `load_config`
fails with a message naming exactly that variable. -/
theorem load_config_missing_vars_exact_witness :
    load_config (fun v => if v = "TWITTER_API_KEY" then none else some "x")
      = .error "Missing required environment variables: TWITTER_API_KEY" := by
  have h := (load_config_missing_vars_exact
    (fun v => if v = "TWITTER_API_KEY" then none else some "x")
    ⟨"TWITTER_API_KEY", by decide, rfl⟩).1
  rw [h]
  congr 1

/-! ## Per-mention processing (`XComBot.process_mention`, bot.py lines 190-220) -/

/-- Observable steps taken while processing one mention: the referenced
post fetch (`get_tweet`), the model call (`generate_response`), the
reply post (`post_response`, final outcome of its retried attempts),
and the two logging calls of `process_mention`. -/
inductive MentionAction where
  | logWarning (msg : String)
  | fetchPost (id : String)
  | generate (context query : String)
  | postReply (text replyTo : String)
  | logError (msg : String)
deriving DecidableEq, Repr

/-- Oracle for the three fallible calls one `process_mention` invocation
can make.  `fetchPost` is `twitter_client.get_tweet` (returns the
referenced post's text), `generate` is the awaited `generate_response`
(final outcome after its internal retries), `postOutcome` the final
outcome of `post_response`'s retried `create_tweet`, and `postTime` the
`time.time()` reading when `post_response` runs `enforce_rate_limit`. -/
structure MentionOracle where
  fetchPost : String → Except String String
  generate : String → String → Except String String
  postOutcome : String → String → Except String Unit
  postTime : ℚ

/-- The source's `for ref in mention.referenced_tweets: if ref.type ==
'replied_to': ...; break / else: warn` — the first `replied_to`
reference, if any. -/
def findRepliedTo (refs : List RefTweet) : Option RefTweet :=
  refs.find? (fun r => r.type == "replied_to")

/-- Body of `process_mention` inside its `try:` block.  The rate-limiter
state `s` is `self.last_request_time`; `post_response` runs
`enforce_rate_limit` before `create_tweet`, so the state advances even
when the post then fails.  An `error` result carries the state and the
trace of actions performed before the exception, plus the message. -/
def process_mention_try (o : MentionOracle) (m : Tweet) (s : ℚ) :
    Except (ℚ × List MentionAction × String) (ℚ × List MentionAction) :=
  if m.referenced_tweets.isEmpty then
    .ok (s, [.logWarning ("No references found for mention " ++ m.id)])
  else
    match findRepliedTo m.referenced_tweets with
    | none => .ok (s, [.logWarning ("No reply reference found for mention " ++ m.id)])
    | some ref =>
      match o.fetchPost ref.id with
      | .error e => .error (s, [.fetchPost ref.id], e)
      | .ok context =>
        match o.generate context m.text with
        | .error e => .error (s, [.fetchPost ref.id, .generate context m.text], e)
        | .ok response =>
          let s2 := (enforce_rate_limit s o.postTime 0).2
          match o.postOutcome response m.id with
          | .error e =>
              .error (s2, [.fetchPost ref.id, .generate context m.text,
                .postReply response m.id], e)
          | .ok _ =>
              .ok (s2, [.fetchPost ref.id, .generate context m.text,
                .postReply response m.id])

/-- `process_mention` proper: the whole body runs under
`try: ... except Exception as e: logger.error(...)`, so any failure is
converted into a trailing `logError` action and the call returns
normally. -/
def process_mention (o : MentionOracle) (m : Tweet) (s : ℚ) :
    ℚ × List MentionAction :=
  match process_mention_try o m s with
  | .ok r => r
  | .error (s2, tr, e) =>
      (s2, tr ++ [.logError ("Error processing mention " ++ m.id ++ ": " ++ e)])

/-- The `for mention in mentions: await self.process_mention(mention)`
loop of `run`, threading the rate-limiter state and collecting each
mention's id with its action trace.  The oracle is indexed by position
in the batch. -/
def process_batch (orc : ℕ → MentionOracle) :
    List Tweet → ℕ → ℚ → ℚ × List (String × List MentionAction)
  | [], _, s => (s, [])
  | m :: rest, i, s =>
      let r1 := process_mention (orc i) m s
      let r2 := process_batch orc rest (i + 1) r1.1
      (r2.1, (m.id, r1.2) :: r2.2)

/-! ## Claim theorems: per-mention processing -/

/-- C3: a mention with no `replied_to` reference (in particular one with
no references at all) makes `process_mention` log a single warning and
return: no referenced-post fetch, no generation call, no reply post, and
the rate-limiter state is unchanged. -/
theorem process_mention_skips_without_replied_to
    (o : MentionOracle) (m : Tweet) (s : ℚ)
    (h : ∀ r, r ∈ m.referenced_tweets → r.type ≠ "replied_to") :
    (process_mention o m s).1 = s
      ∧ (∃ w, (process_mention o m s).2 = [MentionAction.logWarning w])
      ∧ (∀ c q, MentionAction.generate c q ∉ (process_mention o m s).2)
      ∧ (∀ t i, MentionAction.postReply t i ∉ (process_mention o m s).2) := by
  have hfind : findRepliedTo m.referenced_tweets = none := by
    apply List.find?_eq_none.mpr
    intro r hr
    simpa using h r hr
  by_cases he : m.referenced_tweets.isEmpty
  · have hpm : process_mention o m s
        = (s, [.logWarning ("No references found for mention " ++ m.id)]) := by
      simp [process_mention, process_mention_try, he]
    rw [hpm]
    exact ⟨rfl, ⟨_, rfl⟩, by simp, by simp⟩
  · have hpm : process_mention o m s
        = (s, [.logWarning ("No reply reference found for mention " ++ m.id)]) := by
      simp [process_mention, process_mention_try, he, hfind]
    rw [hpm]
    exact ⟨rfl, ⟨_, rfl⟩, by simp, by simp⟩

/-- Witness for C3: a mention carrying only a `quoted` reference is
skipped with its rate-limiter state intact. -/
theorem process_mention_skips_without_replied_to_witness :
    (process_mention
        ⟨fun _ => .ok "ctx", fun _ _ => .ok "resp", fun _ _ => .ok (), 0⟩
        ⟨"7", "@bot hi", [⟨"5", "quoted"⟩]⟩ 3).1 = 3 :=
  (process_mention_skips_without_replied_to
    ⟨fun _ => .ok "ctx", fun _ _ => .ok "resp", fun _ _ => .ok (), 0⟩
    ⟨"7", "@bot hi", [⟨"5", "quoted"⟩]⟩ 3 (by decide)).1

/-- C5: failures while processing a single mention are caught and logged
inside `process_mention` — whenever the `try:` body raises, the call
still returns normally with a trailing `logError` — and therefore the
batch loop processes every mention: the result of `process_batch` has
exactly one record per mention of the batch, with the mention ids in
order, for every oracle (including ones that fail at every stage). -/
theorem process_mention_failures_contained
    (orc : ℕ → MentionOracle) (ms : List Tweet) (i : ℕ) (s : ℚ)
    (o : MentionOracle) (m : Tweet) (s0 s2 : ℚ)
    (tr : List MentionAction) (e : String)
    (herr : process_mention_try o m s0 = .error (s2, tr, e)) :
    process_mention o m s0
        = (s2, tr ++ [MentionAction.logError
            ("Error processing mention " ++ m.id ++ ": " ++ e)])
      ∧ (process_batch orc ms i s).2.map Prod.fst = ms.map Tweet.id := by
  constructor
  · simp only [process_mention, herr]
  · induction ms generalizing i s with
    | nil => rfl
    | cons a l ih => simpa [process_batch] using ih (i + 1) _

/-! ## Fetching mentions (`XComBot.get_mentions`, bot.py lines 148-188) -/

/-- Python's substring operator `needle in hay` on the underlying
character lists: some suffix of `hay` starts with `needle`. -/
def strContainsAux (needle : List Char) : List Char → Bool
  | [] => needle.isEmpty
  | c :: rest => needle.isPrefixOf (c :: rest) || strContainsAux needle rest

/-- `needle in hay` for strings. -/
def strContains (hay needle : String) : Bool :=
  strContainsAux needle.data hay.data

/-- The relevance filter of `get_mentions`:
`(tweet.referenced_tweets and any(ref.type == 'replied_to' ...)) or
(tweet.text and f"@{me.data.username}" in tweet.text)`.  Python
truthiness: an absent/empty reference list and an empty text are
falsy. -/
def isRelevant (username : String) (t : Tweet) : Bool :=
  (!t.referenced_tweets.isEmpty
      && t.referenced_tweets.any (fun r => r.type == "replied_to"))
    || (!(t.text == "") && strContains t.text ("@" ++ username))

/-- Oracle for the two platform calls inside `get_mentions`: `get_me`
(yielding the bot's user id and username) and `get_users_tweets`
(taking the `since_id` argument; `none` data models a `None`
`tweets.data`).  An `error` value models any exception raised by the
call. -/
structure FetchOracle where
  me : Except String (String × String)
  tweets : Option String → Except String (Option (List Tweet))

/-- Embedding of `get_mentions`.  The whole body runs inside
`try: ... except Exception: return []`; `enforce_rate_limit` is the
first statement of the body and cannot raise, so the limiter state
advances (to `fetchNow` adjusted by the spacing rule) on every path,
while any later exception yields the empty list.  Returns the produced
list of tweets together with the new `last_request_time`. -/
def get_mentions (o : FetchOracle) (since_id : Option String)
    (last_request_time fetchNow : ℚ) : List Tweet × ℚ :=
  let r := (enforce_rate_limit last_request_time fetchNow 0).2
  match o.me with
  | .error _ => ([], r)
  | .ok me =>
    match o.tweets since_id with
    | .error _ => ([], r)
    | .ok none => ([], r)
    | .ok (some data) =>
      if data.isEmpty then ([], r)
      else (data.filter (fun t => isRelevant me.2 t), r)

/-! ## The orchestrator loop (`XComBot.run`, bot.py lines 222-242) -/

/-- The mutable state the loop carries across iterations:
`last_mention_id` (the cursor, `None` at startup) and the rate
limiter's `self.last_request_time`. -/
structure LoopState where
  last_mention_id : Option String
  last_request_time : ℚ
deriving DecidableEq, Repr

/-- Oracle for one iteration of the `while True:` loop: the fetch
outcomes, the `time.time()` reading for the fetch's rate-limit check,
one `MentionOracle` per batch position, and `stray`, an exception
escaping the iteration body from a point not protected by the inner
handlers (e.g. a logging call raising inside an inner `except` block);
it reaches the loop's own `except Exception` handler. -/
structure CycleOracle where
  fetch : FetchOracle
  fetchTime : ℚ
  mention : ℕ → MentionOracle
  stray : Option String

/-- One iteration of the loop body inside its `try:` block: fetch,
update the cursor to the first returned mention's id (only when the
returned list is non-empty), process every mention in order, sleep.
An `error` result carries the state and traces at the raise point —
assignments made before an exception persist in Python. -/
def run_cycle_try (s : LoopState) (o : CycleOracle) :
    Except (LoopState × List (String × List MentionAction) × String)
      (LoopState × List (String × List MentionAction)) :=
  let fetched := get_mentions o.fetch s.last_mention_id s.last_request_time o.fetchTime
  let last2 := match fetched.1 with
    | [] => s.last_mention_id
    | m :: _ => some m.id
  let batch := process_batch o.mention fetched.1 0 fetched.2
  let s2 : LoopState := ⟨last2, batch.1⟩
  match o.stray with
  | some e => .error (s2, batch.2, e)
  | none => .ok (s2, batch.2)

/-- The state after one full iteration: the loop's
`except Exception as e: logger.error(...); time.sleep(...)` turns any
escaping exception into a logged, slept-over continuation with the
state reached so far. -/
def run_cycle (s : LoopState) (o : CycleOracle) :
    LoopState × List (String × List MentionAction) :=
  match run_cycle_try s o with
  | .ok r => r
  | .error (s2, trs, _e) => (s2, trs)

/-- One iteration of `run` viewed from outside the `while True:` loop:
an `error` value here would be an exception escaping the loop (making
`run` return/raise).  The iteration body is `run_cycle_try` and the
`except Exception` handler converts every failure into a normal
continuation. -/
def run_iter (s : LoopState) (o : CycleOracle) :
    Except String (LoopState × List (String × List MentionAction)) :=
  match run_cycle_try s o with
  | .ok r => .ok r
  | .error (s2, trs, _e) => .ok (s2, trs)

/-! ## Claim theorems: fetch and orchestrator loop -/

/-- C7: any exception inside `get_mentions` — whether raised by
`get_me` or by `get_users_tweets` — makes it return the empty list
instead of propagating, so the poll degrades to a no-op. -/
theorem get_mentions_error_returns_empty
    (o : FetchOracle) (since_id : Option String) (r now : ℚ) (e : String) :
    (o.me = .error e → (get_mentions o since_id r now).1 = [])
      ∧ (∀ me, o.me = .ok me → o.tweets since_id = .error e →
          (get_mentions o since_id r now).1 = []) := by
  constructor
  · intro h
    simp [get_mentions, h]
  · intro me hme htw
    simp [get_mentions, hme, htw]

/-- Witness for C7: a fetch whose `get_users_tweets` raises yields
no mentions. -/
theorem get_mentions_error_returns_empty_witness :
    (get_mentions ⟨.ok ("1", "bot"), fun _ => .error "timeout"⟩ none 0 0).1 = [] :=
  (get_mentions_error_returns_empty
    ⟨.ok ("1", "bot"), fun _ => .error "timeout"⟩ none 0 0 "timeout").2
    ("1", "bot") rfl rfl

/-- C1: in every loop iteration, if `get_mentions` returns a non-empty
sequence the cursor `last_mention_id` becomes the id of its first
element, and if it returns the empty sequence the cursor is unchanged —
in both cases regardless of any exception later in the iteration. -/
theorem run_cycle_cursor_update (s : LoopState) (o : CycleOracle) :
    (∀ m rest,
        (get_mentions o.fetch s.last_mention_id s.last_request_time o.fetchTime).1
            = m :: rest →
        (run_cycle s o).1.last_mention_id = some m.id)
      ∧ ((get_mentions o.fetch s.last_mention_id s.last_request_time o.fetchTime).1
            = [] →
        (run_cycle s o).1.last_mention_id = s.last_mention_id) := by
  constructor
  · intro m rest h
    cases hstray : o.stray <;>
      simp [run_cycle, run_cycle_try, h, hstray]
  · intro h
    cases hstray : o.stray <;>
      simp [run_cycle, run_cycle_try, h, hstray]

/-- A sample relevant tweet, fetch oracle, and cycle oracle used to
evaluate the loop theorems on concrete inputs. -/
def sampleTweet : Tweet := ⟨"100", "@bot hi", []⟩

/-- Per-mention oracle whose three calls all succeed. -/
def sampleMentionOracle : MentionOracle :=
  ⟨fun _ => .ok "original text", fun _ _ => .ok "a reply", fun _ _ => .ok (), 0⟩

/-- Fetch oracle returning one relevant tweet for user `bot`. -/
def sampleFetch : FetchOracle :=
  ⟨.ok ("1", "bot"), fun _ => .ok (some [sampleTweet])⟩

/-- A cycle oracle with a successful fetch and no stray exception. -/
def sampleCycle : CycleOracle :=
  ⟨sampleFetch, 0, fun _ => sampleMentionOracle, none⟩

/-- Witness for C1: starting from an unset cursor, one cycle against
`sampleCycle` (one fetched mention with id `"100"`) sets the cursor to
`some "100"`. -/
theorem run_cycle_cursor_update_witness :
    (run_cycle ⟨none, 0⟩ sampleCycle).1.last_mention_id = some "100" :=
  (run_cycle_cursor_update ⟨none, 0⟩ sampleCycle).1 sampleTweet [] (by decide)

/-- C6: no exception ever crosses the orchestrator loop boundary —
for every state and every iteration oracle (any fetch outcome, any
per-mention outcomes, any stray exception escaping the body),
`run_iter` returns `.ok` with the continuation state, which is exactly
the state `run_cycle` carries into the next iteration; the `while True:`
loop therefore never exits once serving has started. -/
theorem run_loop_never_exits (s : LoopState) (o : CycleOracle) :
    ∃ s2 trs, run_iter s o = .ok (s2, trs) ∧ run_cycle s o = (s2, trs) := by
  unfold run_iter run_cycle
  cases run_cycle_try s o with
  | ok r => exact ⟨r.1, r.2, rfl, rfl⟩
  | error err => exact ⟨err.1, err.2.1, rfl, rfl⟩

/-- Every tweet returned by `get_mentions` passed the relevance filter
for the username delivered by `get_me`. -/
theorem mem_get_mentions_relevant
    (o : FetchOracle) (since_id : Option String) (r now : ℚ) (t : Tweet)
    (h : t ∈ (get_mentions o since_id r now).1) :
    ∃ me, o.me = .ok me ∧ isRelevant me.2 t = true := by
  rcases hme : o.me with e | me
  · simp [get_mentions, hme] at h
  · rcases htw : o.tweets since_id with e | dat
    · simp [get_mentions, hme, htw] at h
    · cases dat with
      | none => simp [get_mentions, hme, htw] at h
      | some data =>
        cases hd : data.isEmpty with
        | true => simp [get_mentions, hme, htw, hd] at h
        | false =>
          simp only [get_mentions, hme, htw, hd, Bool.false_eq_true,
            if_false] at h
          exact ⟨me, rfl, (List.mem_filter.mp h).2⟩

/-- C10: every element of the list returned by `get_mentions` satisfies
the relevance predicate (a `replied_to` reference, or the bot's handle
as a substring of the text), and because the filter runs before the
cursor update, whenever the loop sets `last_mention_id` it is set to
the id of a relevant tweet — a filtered-out tweet's id never becomes
the cursor. -/
theorem get_mentions_relevance_invariant
    (o : FetchOracle) (since_id : Option String) (r now : ℚ)
    (s : LoopState) (co : CycleOracle) :
    (∀ t, t ∈ (get_mentions o since_id r now).1 →
        ∃ me, o.me = .ok me ∧ isRelevant me.2 t = true)
      ∧ (∀ m rest,
          (get_mentions co.fetch s.last_mention_id s.last_request_time
              co.fetchTime).1 = m :: rest →
          (run_cycle s co).1.last_mention_id = some m.id
            ∧ ∃ me, co.fetch.me = .ok me ∧ isRelevant me.2 m = true) := by
  constructor
  · intro t ht
    exact mem_get_mentions_relevant o since_id r now t ht
  · intro m rest h
    refine ⟨(run_cycle_cursor_update s co).1 m rest h, ?_⟩
    exact mem_get_mentions_relevant co.fetch s.last_mention_id
      s.last_request_time co.fetchTime m (h ▸ List.mem_cons_self m rest)

/-- A per-mention oracle whose generation call fails. -/
def failingMentionOracle : MentionOracle :=
  ⟨fun _ => .ok "ctx", fun _ _ => .error "boom", fun _ _ => .ok (), 0⟩

/-- A mention carrying a `replied_to` reference. -/
def repliedMention : Tweet := ⟨"7", "hi", [⟨"5", "replied_to"⟩]⟩

/-- Witness for C5: a generation failure is converted into a logged
error and a normal return. -/
theorem process_mention_failures_contained_witness :
    process_mention failingMentionOracle repliedMention 0
      = (0, [MentionAction.fetchPost "5", MentionAction.generate "ctx" "hi",
          MentionAction.logError "Error processing mention 7: boom"]) := by
  have h := (process_mention_failures_contained (fun _ => failingMentionOracle)
    [] 0 0 failingMentionOracle repliedMention 0 0
    [MentionAction.fetchPost "5", MentionAction.generate "ctx" "hi"] "boom"
    rfl).1
  rw [h]
  congr 1

/-- Witness for C10: the single tweet surfacing from `sampleCycle`'s
fetch (and becoming the cursor) satisfies the relevance predicate for
username `bot`. -/
theorem get_mentions_relevance_invariant_witness :
    isRelevant "bot" sampleTweet = true := by
  obtain ⟨hcur, me, hme, hrel⟩ := (get_mentions_relevance_invariant
    sampleFetch none 0 0 ⟨none, 0⟩ sampleCycle).2 sampleTweet [] (by decide)
  have hme2 : (Except.ok ("1", "bot") : Except String (String × String))
      = Except.ok me := hme
  rw [← Except.ok.inj hme2] at hrel
  exact hrel

/-! ## Model catalog checks (`model_manager.py`, `bot.py` `__init__`) -/

/-- The error raised by `XComBot.__init__` when
`list_available_models()` comes back empty (bot.py lines 41-45). -/
def unreachable_msg : String :=
  "Ollama не запущена или недоступна. Убедитесь, что сервис запущен командой: ollama serve"

/-- The error raised by `ModelManager.ensure_model_exists` when no
model is available (model_manager.py lines 24-28). -/
def no_models_msg : String :=
  "Нет доступных моделей. Убедитесь, что Ollama запущена и хотя бы одна модель установлена.\nДля установки модели используйте команду: ollama pull MODEL_NAME"

/-- The error raised by `ModelManager.ensure_model_exists` when the
configured model is not in the catalog, listing the available model
names (model_manager.py lines 30-36). -/
def model_not_found_msg (name : String) (available : List String) : String :=
  "Модель " ++ name ++ " не найдена. Доступные модели:\n"
    ++ String.intercalate ", " available
    ++ "\nДля использования другой модели укажите её в .env файле через MODEL_NAME=имя_модели\nИли установите новую модель командой: ollama pull MODEL_NAME"

/-- Embedding of `ensure_model_exists` over the catalog returned by
`list_available_models`. -/
def ensure_model_exists (catalog : List String) (name : String) :
    Except String Unit :=
  if catalog.isEmpty then .error no_models_msg
  else if name ∈ catalog then .ok ()
  else .error (model_not_found_msg name catalog)

/-- The model-initialization sequence of `XComBot.__init__`: the empty
catalog is rejected first with the "service unreachable" error, then
`ensure_model_exists` validates the configured name; the `except`
block logs and re-raises, so the original error propagates. -/
def init_model_check (catalog : List String) (name : String) :
    Except String Unit :=
  if catalog.isEmpty then .error unreachable_msg
  else ensure_model_exists catalog name

/-- The "model not installed" message never coincides with the
"service unreachable" message (they differ already in their first
character), whatever the model name and catalog. -/
theorem model_not_found_msg_ne_unreachable (name : String) (c : List String) :
    model_not_found_msg name c ≠ unreachable_msg := by
  intro h
  have hd := congrArg (fun s => s.data.head?) h
  simp only [model_not_found_msg, unreachable_msg, String.data_append] at hd
  simp at hd

/-- C9: an empty model catalog makes initialization fail fatally with
the "inference service unreachable" error; a non-empty catalog missing
the configured model makes it fail with the distinct error listing the
available names. -/
theorem init_model_check_failures (catalog : List String) (name : String) :
    (catalog = [] → init_model_check catalog name = .error unreachable_msg)
      ∧ (catalog ≠ [] → name ∉ catalog →
          init_model_check catalog name
              = .error (model_not_found_msg name catalog)
            ∧ model_not_found_msg name catalog ≠ unreachable_msg) := by
  constructor
  · intro h
    subst h
    rfl
  · intro hne hnin
    have hemp : catalog.isEmpty = false := by
      cases catalog with
      | nil => exact absurd rfl hne
      | cons a l => rfl
    exact ⟨by simp [init_model_check, ensure_model_exists, hemp, hnin],
      model_not_found_msg_ne_unreachable name catalog⟩

/-- Witness for C9: catalog `["llama3", "mistral"]` with configured
model `"gpt-x"` fails with the message listing the two available
models; the empty catalog fails with the unreachable-service message. -/
theorem init_model_check_failures_witness :
    init_model_check ["llama3", "mistral"] "gpt-x"
        = .error (model_not_found_msg "gpt-x" ["llama3", "mistral"])
      ∧ init_model_check [] "gpt-x" = .error unreachable_msg :=
  ⟨((init_model_check_failures ["llama3", "mistral"] "gpt-x").2
      (by decide) (by decide)).1,
   (init_model_check_failures [] "gpt-x").1 rfl⟩

/-! ## Retry discipline (tenacity `@retry(wait=wait_exponential(multiplier=1,
min=4, max=60), stop=stop_after_attempt(3))`)

In the source, exactly two call sites carry this decorator:
`XComBot.generate_response` and `XComBot.post_response` (bot.py lines
87 and 128).  `XComBot.get_mentions`, the `get_tweet` call inside
`process_mention`, and `ModelManager.list_available_models` carry no
retry wrapper. -/

/-- tenacity's `wait_exponential(multiplier, min, max)` wait after the
failed attempt numbered `attempt_number` (1-based):
`max(max(0, min), min(multiplier * 2 ** attempt_number, max))`. -/
def wait_exponential_val (multiplier minW maxW : ℚ) (attempt_number : ℕ) : ℚ :=
  max (max 0 minW) (min (multiplier * 2 ^ attempt_number) maxW)

/-- Driver for a tenacity-retried call.  `call` gives each attempt's
outcome (1-based attempt index), `attempt` is the current attempt
number, and the second argument is the number of retries still allowed
before `stop_after_attempt` fires.  Returns the final outcome (the last
attempt's outcome propagates, wrapped by tenacity in a retry error we
do not distinguish), the number of attempts made, and the waits slept
between attempts. -/
def tenacityRetryAux {α : Type} (call : ℕ → Except String α) :
    ℕ → ℕ → Except String α × ℕ × List ℚ
  | attempt, 0 => (call attempt, 1, [])
  | attempt, k + 1 =>
    match call attempt with
    | .ok a => (.ok a, 1, [])
    | .error _ =>
      let w := wait_exponential_val 1 4 60 attempt
      let r := tenacityRetryAux call (attempt + 1) k
      (r.1, r.2.1 + 1, w :: r.2.2)

/-- `stop_after_attempt(3)` with `wait_exponential(multiplier=1, min=4,
max=60)`: at most three attempts starting at attempt 1. -/
def retry_stop3 {α : Type} (call : ℕ → Except String α) :
    Except String α × ℕ × List ℚ :=
  tenacityRetryAux call 1 2

/-- `XComBot.generate_response`: builds the fixed prompt and calls the
model through Ollama; the whole body is retried by the decorator (the
inner `except` re-raises, leaving outcomes unchanged).  `call` is the
outcome of each underlying generation attempt. -/
def generate_response (call : ℕ → Except String String) :
    Except String String × ℕ × List ℚ :=
  retry_stop3 call

/-- `XComBot.post_response`: `enforce_rate_limit` then `create_tweet`,
the whole body retried by the decorator (the inner `except` re-raises).
`call` is the outcome of each underlying post attempt. -/
def post_response (call : ℕ → Except String Unit) :
    Except String Unit × ℕ × List ℚ :=
  retry_stop3 call

/-- `ModelManager.list_available_models`: one `GET /api/tags` request;
a 200 response yields the model names (`.ok (some names)`), a non-200
status yields `[]` (`.ok none`), and any exception is caught, logged
and turned into `[]`.  No retry decorator.  `call` gives the outcome
each successive request would have; the source only ever makes the
first. -/
def list_available_models (call : ℕ → Except String (Option (List String))) :
    List String :=
  match call 1 with
  | .ok (some names) => names
  | .ok none => []
  | .error _ => []

/-- Modelled from the claim's words, for comparison with the source:
the catalog listing as it would behave if, like the claim states for
every network operation, it were wrapped in the 3-attempt retry with
the final error propagating. -/
def retry_wrapped_list_models
    (call : ℕ → Except String (Option (List String))) : List String :=
  match (retry_stop3 call).1 with
  | .ok (some names) => names
  | .ok none => []
  | .error _ => []

/-- A `/api/tags` endpoint that fails its first request and would
succeed on any later one. -/
def flaky_tags_call : ℕ → Except String (Option (List String)) :=
  fun n => if n = 1 then .error "connection refused" else .ok (some ["llama3"])

/-- Counterexample to C2: `list_available_models` is not wrapped in the
retry policy — against an endpoint failing only its first request it
returns `[]` (one attempt, error swallowed), where the claimed
retry-wrapped operation would recover `["llama3"]`; moreover even for
the operations that are wrapped, the waits inside the 3 allowed
attempts are 4 and 4 time-units (tenacity clamps `2^1 = 2` and
`2^2 = 4` up to the minimum of 4), not a doubling `[4, 8]`. -/
theorem list_models_not_retried_cex :
    list_available_models flaky_tags_call = []
      ∧ retry_wrapped_list_models flaky_tags_call = ["llama3"]
      ∧ list_available_models flaky_tags_call
          ≠ retry_wrapped_list_models flaky_tags_call
      ∧ (retry_stop3 (fun _ => (.error "down" : Except String String))).2.2
          = [4, 4] := by
  have hw1 : wait_exponential_val 1 4 60 1 = 4 := by
    simp [wait_exponential_val]
    norm_num
  have hw2 : wait_exponential_val 1 4 60 2 = 4 := by
    simp [wait_exponential_val]
    norm_num
  refine ⟨rfl, by decide, by decide, ?_⟩
  simp [retry_stop3, tenacityRetryAux, hw1, hw2]

/-- C2 (amended): only posting a reply and generating text are wrapped
in the retry policy — up to 3 attempts total, waiting
`max(max(0,4), min(2^k, 60))` after the k-th failed attempt (4 and 4
time-units within the 3 attempts), the third attempt's outcome, error
included, propagating to the caller.  Fetching mentions and listing
available models are not retried: one failed attempt makes them return
the empty list.  Fetching a single referenced post is not retried
either: its error goes straight to `process_mention`'s handler, which
logs it and returns. -/
theorem retry_discipline_amended
    (g : ℕ → Except String String) (p : ℕ → Except String Unit)
    (l : ℕ → Except String (Option (List String)))
    (o : FetchOracle) (since_id : Option String) (r now : ℚ)
    (mo : MentionOracle) (m : Tweet) (s : ℚ) (ref : RefTweet)
    (e1 e2 el ef : String) (g3 : Except String String)
    (p3 : Except String Unit) :
    (g 1 = .error e1 → g 2 = .error e2 → g 3 = g3 →
        generate_response g = (g3, 3, [4, 4]))
      ∧ (∀ v, g 1 = .ok v → generate_response g = (.ok v, 1, []))
      ∧ (p 1 = .error e1 → p 2 = .error e2 → p 3 = p3 →
        post_response p = (p3, 3, [4, 4]))
      ∧ (l 1 = .error el → list_available_models l = [])
      ∧ (o.me = .error ef → (get_mentions o since_id r now).1 = [])
      ∧ (m.referenced_tweets.isEmpty = false →
        findRepliedTo m.referenced_tweets = some ref →
        mo.fetchPost ref.id = .error e1 →
        process_mention mo m s
          = (s, [MentionAction.fetchPost ref.id,
              MentionAction.logError
                ("Error processing mention " ++ m.id ++ ": " ++ e1)])) := by
  have hw1 : wait_exponential_val 1 4 60 1 = 4 := by
    simp [wait_exponential_val]
    norm_num
  have hw2 : wait_exponential_val 1 4 60 2 = 4 := by
    simp [wait_exponential_val]
    norm_num
  refine ⟨?_, ?_, ?_, ?_, ?_, ?_⟩
  · intro h1 h2 h3
    simp [generate_response, retry_stop3, tenacityRetryAux, h1, h2, h3, hw1, hw2]
  · intro v hv
    simp [generate_response, retry_stop3, tenacityRetryAux, hv]
  · intro h1 h2 h3
    simp [post_response, retry_stop3, tenacityRetryAux, h1, h2, h3, hw1, hw2]
  · intro hl
    simp [list_available_models, hl]
  · intro hf
    simp [get_mentions, hf]
  · intro hne hfind herr
    simp [process_mention, process_mention_try, hne, hfind, herr]

/-- A generation endpoint failing its first two attempts and succeeding
on the third. -/
def third_try_call : ℕ → Except String String :=
  fun n => if n ≤ 2 then .error "busy" else .ok "reply text"

/-- Witness for the amended C2: against `third_try_call`,
`generate_response` returns the third attempt's success after exactly
3 attempts with waits 4 and 4. -/
theorem retry_discipline_amended_witness :
    generate_response third_try_call = (.ok "reply text", 3, [4, 4]) :=
  (retry_discipline_amended third_try_call (fun _ => .ok ())
    (fun _ => .ok none) sampleFetch none 0 0 sampleMentionOracle
    sampleTweet 0 ⟨"5", "replied_to"⟩ "busy" "busy" "x" "x"
    (.ok "reply text") (.ok ())).1 rfl rfl rfl
